import Mathlib

/-!
Verification of the message-analysis triage pipeline.

Shallow embedding of the Python sources:
  - `src/kafka_consumer.py`  (KafkaMessage, MessageProcessor, UnknownTopicMonitor)
  - `src/ai_agent.py`        (MessageAnalysisAgent.process_unknown_message)
  - `src/tools/backstage_notification.py`      (send_backstage_notification)
  - `src/tools/backstage_notification_tool.py` (BackstageNotificationTool._run)
  - `src/tools/backstage_catalog.py`           (BackstageCatalogTool._run)

External effects (HTTP requests, the language model) are passed in as explicit
parameters; Python exceptions are threaded as `Except Exn`.
-/

/-- A Python exception, abstracted to its message text (`str(e)`). -/
structure Exn where
  msg : String
deriving DecidableEq, Repr

/-- A JSON value, the result of `json.loads` / `response.json()`.
Numbers are modelled as integers (the fields the program reads —
partition, offset, timestamp, status codes — are integral). -/
inductive Json where
  | null
  | bool (b : Bool)
  | num (n : Int)
  | str (s : String)
  | arr (xs : List Json)
  | obj (fields : List (String × Json))

namespace Json

/-- Python truthiness (`if not title`) of a JSON-decoded value. -/
def truthy : Json → Bool
  | .null => false
  | .bool b => b
  | .num n => n != 0
  | .str s => s != ""
  | .arr xs => !xs.isEmpty
  | .obj fs => !fs.isEmpty

mutual

/-- Python `repr` of a JSON-decoded value (used inside container rendering). -/
def pyRepr : Json → String
  | .null => "None"
  | .bool true => "True"
  | .bool false => "False"
  | .num n => toString n
  | .str s => "\x27" ++ s ++ "\x27"
  | .arr xs => "[" ++ String.intercalate ", " (pyReprList xs) ++ "]"
  | .obj fs => "\x7b" ++ String.intercalate ", " (pyReprFields fs) ++ "\x7d"

/-- `repr` of each element of a decoded list. -/
def pyReprList : List Json → List String
  | [] => []
  | x :: xs => pyRepr x :: pyReprList xs

/-- `repr` of each `key: value` pair of a decoded dict. -/
def pyReprFields : List (String × Json) → List String
  | [] => []
  | (k, v) :: fs => ("\x27" ++ k ++ "\x27: " ++ pyRepr v) :: pyReprFields fs

end

/-- Python `str()` of a JSON-decoded value, as an f-string renders it. -/
def pyStr : Json → String
  | .str s => s
  | v => pyRepr v

/-- `d.get(key, default)` on a Python value decoded from JSON: returns the
value or the default on a dict, raises `AttributeError` otherwise. -/
def pyGet (j : Json) (key : String) (dflt : Json) : Except Exn Json :=
  match j with
  | .obj fs => .ok ((fs.lookup key).getD dflt)
  | _ => .error ⟨"AttributeError: object has no attribute get"⟩

/-- Iterating a Python value decoded from JSON (`for entity in entities`):
a list yields its elements, a dict its keys, a string its characters;
anything else raises `TypeError`. -/
def pyIter : Json → Except Exn (List Json)
  | .arr xs => .ok xs
  | .obj fs => .ok (fs.map (fun p => .str p.1))
  | .str s => .ok (s.data.map (fun c => .str (String.singleton c)))
  | _ => .error ⟨"TypeError: object is not iterable"⟩

end Json

/-! ## `src/tools/backstage_notification.py` — `send_backstage_notification` -/

/-- The body `requests.post(...)` sends: `payload.title/description` plus the
`recipients.entityRef` taken from settings (`notification_recipient_entity`). -/
structure NotificationPayload where
  title : String
  description : String
  recipientEntityRef : String
deriving DecidableEq, Repr

/-- Outcome of the one `requests.post` call inside
`send_backstage_notification`: an HTTP response, a
`requests.exceptions.RequestException`, or any other exception. -/
inductive HttpOutcome where
  | resp (status : Nat) (text : String)
  | reqExn (m : String)
  | otherExn (m : String)
deriving DecidableEq, Repr

/-- `send_backstage_notification(title, description)`.  The payload (with the
configured recipient entity reference) is always constructed and handed to the
POST; the function returns a string on every path — the two `except` clauses
convert both exception classes into `"Error: ..."` strings. -/
def send_backstage_notification (recipientEntity : String)
    (title description : String) (http : HttpOutcome) :
    String × NotificationPayload :=
  let payload : NotificationPayload :=
    { title := title, description := description,
      recipientEntityRef := recipientEntity }
  match http with
  | .resp status _text =>
      if status = 200 ∨ status = 201 ∨ status = 202 then
        ("Notification sent successfully to Backstage (status: " ++
           toString status ++ ")", payload)
      else
        ("Error: Failed to send notification: " ++ toString status ++ " - " ++
           _text, payload)
  | .reqExn m => ("Error: Network error sending notification: " ++ m, payload)
  | .otherExn m =>
      ("Error: Unexpected error sending notification: " ++ m, payload)

/-! ## `src/tools/backstage_notification_tool.py` — `BackstageNotificationTool._run` -/

/-- The `try:` body of `BackstageNotificationTool._run`, before its `except`
clauses.  `parsed` is the outcome of `json.loads(notification_data)`
(`.error` = `json.JSONDecodeError`); `sendResult` is what
`send_backstage_notification` returns when the tool delegates to it.  The
boolean records whether that delegation (the only network call) happened. -/
def notificationTool_body (parsed : Except Exn Json) (sendResult : String) :
    Except Exn (String × Bool) := do
  let data ← parsed
  let title ← data.pyGet "title" (.str "")
  let description ← data.pyGet "description" (.str "")
  if !title.truthy then
    return ("Error: title is required", false)
  else if !description.truthy then
    return ("Error: description is required", false)
  else
    return (sendResult, true)

/-- `BackstageNotificationTool._run(notification_data)`: the body wrapped in
the tool's `except json.JSONDecodeError` / `except Exception` handlers, so it
always returns a string.  A `.error parsed` argument is the JSON-decode
failure and is caught by the first handler before the body runs. -/
def notificationTool_run (parsed : Except Exn Json) (sendResult : String) :
    String × Bool :=
  match parsed with
  | .error e => ("Failed to parse notification data JSON: " ++ e.msg, false)
  | .ok _ =>
      match notificationTool_body parsed sendResult with
      | .ok r => r
      | .error e => ("Failed to send notification: " ++ e.msg, false)

/-! ## `src/tools/backstage_catalog.py` — `BackstageCatalogTool._run` -/

/-- Python `value == "Group"`: true only for an equal string
(cross-type `==` is `False`, never an error). -/
def Json.isPyStrEq (j : Json) (s : String) : Bool :=
  match j with
  | .str t => t == s
  | _ => false

/-- One iteration of the `for entity in entities` loop in
`BackstageCatalogTool._run`: skip the entity unless
`entity.get("kind") == "Group"`, otherwise read `metadata.name`
(default `""`), `metadata.namespace` (default `"default"`),
`metadata.title or name` for the display value, and the entity reference
`"group:" + namespace + "/" + name`. -/
def catalogEntityGroup (entity : Json) : Except Exn (Option (Json × String)) := do
  let kind ← entity.pyGet "kind" .null
  if kind.isPyStrEq "Group" then
    let metadata ← entity.pyGet "metadata" (.obj [])
    let nameJ ← metadata.pyGet "name" (.str "")
    let nsJ ← metadata.pyGet "namespace" (.str "default")
    let titleJ ← metadata.pyGet "title" (.str "")
    let displayJ := if titleJ.truthy then titleJ else nameJ
    let entityRef := "group:" ++ nsJ.pyStr ++ "/" ++ nameJ.pyStr
    return some (displayJ, entityRef)
  else
    return none

/-- The whole `for entity in entities` loop: the `groups` list built in
iteration order, or the first exception raised by an entity. -/
def collectGroups : List Json → Except Exn (List (Json × String))
  | [] => .ok []
  | e :: es => do
      let g ← catalogEntityGroup e
      let rest ← collectGroups es
      match g with
      | some p => .ok (p :: rest)
      | none => .ok rest

/-- One `result += f"- **{display_name}** ({entity_ref})\n"` line. -/
def catalogBullet (g : Json × String) : String :=
  "- **" ++ g.1.pyStr ++ "** (" ++ g.2 ++ ")\n"

/-- The non-empty `groups` rendering of `BackstageCatalogTool._run`. -/
def renderGroups (groups : List (Json × String)) : String :=
  "Found " ++ toString groups.length ++ " group(s) in Backstage Catalog:\n\n" ++
    String.join (groups.map catalogBullet)

/-- The HTTP response seen by the catalog tool: status code, raw text, and
the outcome of `response.json()` (`.error` = the decode failure, which in
`requests` is a `RequestException` subclass and so lands in the tool's
network-error handler). -/
structure CatalogResponse where
  status : Nat
  text : String
  body : Except Exn Json

/-- Outcome of the `requests.get` call in `BackstageCatalogTool._run`. -/
inductive CatalogHttp where
  | resp (r : CatalogResponse)
  | reqExn (m : String)
  | otherExn (m : String)

/-- `BackstageCatalogTool._run(query)`.  Every path returns a string: the two
`except` clauses turn `RequestException` (including the `response.json()`
decode failure) and any other exception (e.g. `TypeError` / `AttributeError`
raised while iterating the decoded body) into `"Error: ..."` strings. -/
def backstageCatalogTool_run (http : CatalogHttp) : String :=
  match http with
  | .reqExn m => "Error: Network error querying Backstage Catalog: " ++ m
  | .otherExn m => "Error: Unexpected error querying Backstage Catalog: " ++ m
  | .resp r =>
      if r.status = 200 then
        match r.body with
        | .error e => "Error: Network error querying Backstage Catalog: " ++ e.msg
        | .ok bodyJson =>
            match (do
                let entities ← bodyJson.pyIter
                collectGroups entities) with
            | .error e =>
                "Error: Unexpected error querying Backstage Catalog: " ++ e.msg
            | .ok groups =>
                if groups.isEmpty then
                  "No groups found in the Backstage Catalog."
                else
                  renderGroups groups
      else
        "Error: Failed to query Backstage Catalog: " ++ toString r.status ++
          " - " ++ r.text

/-! ## `src/kafka_consumer.py` — `KafkaMessage`, `MessageProcessor`, `UnknownTopicMonitor` -/

/-- The `KafkaMessage` dataclass: one consumed record with its metadata. -/
structure KafkaMessage where
  topic : String
  partition : Int
  offset : Int
  key : Option String
  value : String
  timestamp : Int
  headers : List (String × Json)

/-- `UnknownTopicMonitor._handle_message(message)`: on the monitored topic it
invokes `ai_agent_callback(message.value, metadata)` at its single call site
(`some` = the one invocation with its two arguments); on any other topic it
only logs at debug level and returns without invoking the callback (`none`). -/
def UnknownTopicMonitor_handle_message (monitoredTopic : String)
    (m : KafkaMessage) : Option (String × List (String × Json)) :=
  if m.topic == monitoredTopic then
    some (m.value,
      [("topic", .str m.topic),
       ("partition", .num m.partition),
       ("offset", .num m.offset),
       ("timestamp", .num m.timestamp),
       ("headers", .obj m.headers),
       ("key", match m.key with | some k => .str k | none => .null)])
  else
    none

/-- A consume loop over the fetched records in which an uncaught exception
from the per-message step aborts the iteration: the result lists the messages
the step was invoked on, paired with the exception that stopped the loop, if
any.  `MessageProcessor.start_consuming` instantiates the step with its
`try/except` body, which is what keeps the abort edge from ever firing. -/
def consumeLoop (step : KafkaMessage → Except Exn Unit) :
    List KafkaMessage → List KafkaMessage × Option Exn
  | [] => ([], none)
  | m :: rest =>
      match step m with
      | .ok _ =>
          let (handled, stopped) := consumeLoop step rest
          (m :: handled, stopped)
      | .error e => ([m], some e)

/-- The per-message `try:` body of `start_consuming` with its
`except Exception: logger.error(...); continue` handler: the handler outcome
(the dataclass construction is pure here) is logged and swallowed, so the
step itself never raises. -/
def startConsumingStep (handler : KafkaMessage → Except Exn Unit)
    (m : KafkaMessage) : Except Exn Unit :=
  match handler m with
  | .ok _ => .ok ()
  | .error _ => .ok ()

/-- `MessageProcessor.start_consuming` over a list of fetched records, with
`self.running` true throughout (no `stop_consuming` call) and no bus-level
`KafkaError`: each record is converted and handed to `message_handler` inside
the per-message `try/except`. -/
def start_consuming (handler : KafkaMessage → Except Exn Unit)
    (msgs : List KafkaMessage) : List KafkaMessage × Option Exn :=
  consumeLoop (startConsumingStep handler) msgs

/-! ## `src/ai_agent.py` — `MessageAnalysisAgent` -/

/-- `max_iterations=5` from `MessageAnalysisAgent._create_agent`. -/
def agent_max_iterations : Nat := 5

/-- Tool name of `BackstageNotificationTool` (`name` field in
`src/tools/backstage_notification_tool.py`). -/
def notification_tool_name : String := "send_backstage_notification"

/-- Tool name of `BackstageCatalogTool` (`name` field in
`src/tools/backstage_catalog.py`). -/
def catalog_tool_name : String := "backstage_catalog_groups"

/-- `metadata.get(key)` on the metadata dict (default `None`). -/
def pyDictGet (d : List (String × Json)) (k : String) : Json :=
  (d.lookup k).getD .null

/-- Indentation prefix used by `json.dumps(..., indent=2)`. -/
def jsonSpaces (n : Nat) : String :=
  String.mk (List.replicate n ' ')

mutual

/-- `json.dumps(value, indent=2)`; `ind` is the indent column of the value's
enclosing container.  Escaping of special characters inside strings is not
modelled (the result only feeds the model prompt). -/
def pyJsonDumps (ind : Nat) : Json → String
  | .null => "null"
  | .bool true => "true"
  | .bool false => "false"
  | .num n => toString n
  | .str s => "\"" ++ s ++ "\""
  | .arr [] => "[]"
  | .arr (x :: xs) =>
      "[\n" ++ String.intercalate ",\n" (pyJsonDumpsList (ind + 2) (x :: xs)) ++
        "\n" ++ jsonSpaces ind ++ "]"
  | .obj [] => "\x7b\x7d"
  | .obj (f :: fs) =>
      "\x7b\n" ++
        String.intercalate ",\n" (pyJsonDumpsFields (ind + 2) (f :: fs)) ++
        "\n" ++ jsonSpaces ind ++ "\x7d"

/-- Elements of a dumped list, each on its own indented line. -/
def pyJsonDumpsList (ind : Nat) : List Json → List String
  | [] => []
  | x :: xs => (jsonSpaces ind ++ pyJsonDumps ind x) :: pyJsonDumpsList ind xs

/-- `"key": value` lines of a dumped dict. -/
def pyJsonDumpsFields (ind : Nat) : List (String × Json) → List String
  | [] => []
  | (k, v) :: fs =>
      (jsonSpaces ind ++ "\"" ++ k ++ "\": " ++ pyJsonDumps ind v) ::
        pyJsonDumpsFields ind fs

end

/-- The task prompt built in `process_unknown_message` (lines 83–94):
content, Topic/Partition/Offset from `metadata.get`, and
`json.dumps(metadata.get('headers', \x7b\x7d), indent=2)`. -/
def buildPrompt (content : String) (metadata : List (String × Json)) : String :=
  let headersJson := pyJsonDumps 0 ((metadata.lookup "headers").getD (.obj []))
  "Analyze this failed message that failed to be routed properly, and generate a one sentence summary of the likely cause of the routing failure.\n\nMessage: " ++
    content ++
    "\n\nMetadata: Topic=" ++ (pyDictGet metadata "topic").pyStr ++
    ", Partition=" ++ (pyDictGet metadata "partition").pyStr ++
    ", Offset=" ++ (pyDictGet metadata "offset").pyStr ++
    "\n\nHeaders: " ++ headersJson ++
    "\n\nAlways send a notification containing your analysis and summary of the likely cause of the routing failure."

/-- Modelled from the spec: what the language model does in one reasoning
round — select a tool with arguments, or emit a final answer (spec §4.2
step 3).  The driver that produces these actions lives in the agent
framework (`initialize_agent(...)` / `agent.run`), not in this repository's
`src/`. -/
inductive ModelAction where
  | toolCall (name : String) (args : String)
  | finalAnswer (answer : String)

/-- Modelled from the spec: the model as an oracle from the running
transcript to the round's action; `.error` is a raising model call
(timeout, unreachable inference server). -/
def ModelOracle : Type :=
  List String → Except Exn ModelAction

/-- State threaded through the reasoning loop: the transcript, the number of
`SendNotification` tool-call attempts observed, and the number of reasoning
rounds (model invocations) executed. -/
structure LoopState where
  transcript : List String
  sendAttempts : Nat
  rounds : Nat

/-- Modelled from the spec: the bounded ReAct driver loop of the agent
framework (spec §4.2 steps 3–5), which is not part of this repository's
`src/`.  Each round invokes the model; a recognised tool call is counted
(for `SendNotification`) and invoked — a raising tool invocation escapes the
loop (spec §4.2 step 6) — an unrecognised or malformed call appends a
corrective message and continues (spec §4.2 step 4, `handle_parsing_errors`);
a final answer or exhausted `fuel` ends the loop. -/
def runReactLoop (oracle : ModelOracle)
    (toolEval : String → String → Except Exn String) :
    Nat → LoopState → Except Exn (Option String) × LoopState
  | 0, st => (.ok none, st)
  | fuel + 1, st =>
      match oracle st.transcript with
      | .error e => (.error e, { st with rounds := st.rounds + 1 })
      | .ok (.finalAnswer a) => (.ok (some a), { st with rounds := st.rounds + 1 })
      | .ok (.toolCall name args) =>
          if name == notification_tool_name || name == catalog_tool_name then
            let st1 : LoopState :=
              { st with
                rounds := st.rounds + 1,
                sendAttempts :=
                  st.sendAttempts +
                    (if name == notification_tool_name then 1 else 0) }
            match toolEval name args with
            | .error e => (.error e, st1)
            | .ok res =>
                runReactLoop oracle toolEval fuel
                  { st1 with transcript := st.transcript ++ [res] }
          else
            runReactLoop oracle toolEval fuel
              { st with
                transcript := st.transcript ++ ["Invalid tool name: " ++ name],
                rounds := st.rounds + 1 }

/-- The fallback notification description built in `process_unknown_message`
(lines 109–119): the error text and Topic/Partition/Offset/Timestamp from
`metadata.get`. -/
def fallbackNotificationDescription (errText : String)
    (metadata : List (String × Json)) : String :=
  "The AI agent encountered an error while analyzing a failed message:\n\n**Error:** " ++
    errText ++
    "\n\n**Metadata:**\n- Topic: " ++ (pyDictGet metadata "topic").pyStr ++
    "\n- Partition: " ++ (pyDictGet metadata "partition").pyStr ++
    "\n- Offset: " ++ (pyDictGet metadata "offset").pyStr ++
    "\n- Timestamp: " ++ (pyDictGet metadata "timestamp").pyStr ++
    "\n\nPlease investigate this message routing failure manually."

/-- Everything one `process_unknown_message` call did: the reasoning loop's
outcome and final state, whether the fallback send was attempted and with
which title/description, and what the call itself returned to its caller. -/
structure ProcResult where
  loopResult : Except Exn (Option String)
  loopState : LoopState
  fallbackAttempted : Bool
  fallbackTitle : Option String
  fallbackDescr : Option String
  returned : Except Exn Unit

/-- `MessageAnalysisAgent.process_unknown_message(message_content, metadata)`:
build the prompt, run the agent (the reasoning loop with
`max_iterations=5`); on any exception escaping the loop, build the "AI Agent
Error" fallback payload and attempt the direct `send_backstage_notification`
call inside its own `try/except` (a raising fallback send is logged and
swallowed).  `fallbackSend` stands for that direct send call. -/
def process_unknown_message (oracle : ModelOracle)
    (toolEval : String → String → Except Exn String)
    (fallbackSend : String → String → Except Exn String)
    (content : String) (metadata : List (String × Json)) : ProcResult :=
  let prompt := buildPrompt content metadata
  let (res, st) :=
    runReactLoop oracle toolEval agent_max_iterations
      { transcript := [prompt], sendAttempts := 0, rounds := 0 }
  match res with
  | .ok r =>
      { loopResult := .ok r, loopState := st, fallbackAttempted := false,
        fallbackTitle := none, fallbackDescr := none, returned := .ok () }
  | .error e =>
      let title := "AI Agent Error"
      let descr := fallbackNotificationDescription e.msg metadata
      match fallbackSend title descr with
      | .ok _ =>
          { loopResult := .error e, loopState := st, fallbackAttempted := true,
            fallbackTitle := some title, fallbackDescr := some descr,
            returned := .ok () }
      | .error _ =>
          { loopResult := .error e, loopState := st, fallbackAttempted := true,
            fallbackTitle := some title, fallbackDescr := some descr,
            returned := .ok () }

/-- Total notification-send attempts of one `process_unknown_message` call:
the `SendNotification` tool calls made during the reasoning loop plus the
fallback send attempt, if it was made. -/
def notificationAttempts (p : ProcResult) : Nat :=
  p.loopState.sendAttempts + (if p.fallbackAttempted then 1 else 0)

/-! ## Pure descriptions of the catalog loop, used to state its properties -/

/-- `entity.get("kind") == "Group"` as a pure predicate on a dict entity. -/
def entityKindIsGroup (e : Json) : Bool :=
  match e with
  | .obj fs => ((fs.lookup "kind").getD .null).isPyStrEq "Group"
  | _ => false

/-- The `metadata` dict of an entity (`\x7b\x7d` when absent). -/
def entityMetadata (e : Json) : List (String × Json) :=
  match e with
  | .obj fs =>
      match fs.lookup "metadata" with
      | some (.obj ms) => ms
      | _ => []
  | _ => []

/-- `metadata.get("name", "")` of an entity. -/
def groupName (e : Json) : Json :=
  ((entityMetadata e).lookup "name").getD (.str "")

/-- `metadata.get("namespace", "default")` of an entity. -/
def groupNs (e : Json) : Json :=
  ((entityMetadata e).lookup "namespace").getD (.str "default")

/-- `metadata.get("title", "")` of an entity. -/
def groupTitle (e : Json) : Json :=
  ((entityMetadata e).lookup "title").getD (.str "")

/-- `metadata.get("title", "") or name`: the display value of a group. -/
def groupDisplay (e : Json) : Json :=
  if (groupTitle e).truthy then groupTitle e else groupName e

/-- The rendered entity reference `group:<namespace>/<name>`. -/
def groupRef (e : Json) : String :=
  "group:" ++ (groupNs e).pyStr ++ "/" ++ (groupName e).pyStr

/-- The group entries the catalog loop collects from a list of entities. -/
def groupsOf (es : List Json) : List (Json × String) :=
  (es.filter entityKindIsGroup).map (fun e => (groupDisplay e, groupRef e))

/-- A catalog entity as the catalog interface delivers it: a dict whose
`metadata` field, when present, is itself a dict.  This is the exact
condition under which the loop body runs without raising. -/
def wfEntity : Json → Bool
  | .obj fs =>
      match fs.lookup "metadata" with
      | none => true
      | some (.obj _) => true
      | some _ => false
  | _ => false

/-! ## Theorems -/

/-- C7: for every title and description, `send_backstage_notification`
returns a result string on every outcome of the POST — the success string
exactly when the HTTP status is 200, 201 or 202; the network-error string on
a `RequestException`; the server-failure string (with status code and body)
on any other status; the unexpected-error string on any other exception —
and the payload handed to the POST always carries the configured recipient
entity reference.  Totality of the return type is the never-raises part of
the contract: both `except` clauses of the source convert exceptions into
returned strings. -/
theorem send_notification_contract (recipient title descr : String) :
    (∀ status text,
        (send_backstage_notification recipient title descr (.resp status text)).1 =
          (if status = 200 ∨ status = 201 ∨ status = 202 then
            "Notification sent successfully to Backstage (status: " ++
              toString status ++ ")"
          else
            "Error: Failed to send notification: " ++ toString status ++
              " - " ++ text)) ∧
    (∀ m, (send_backstage_notification recipient title descr (.reqExn m)).1 =
        "Error: Network error sending notification: " ++ m) ∧
    (∀ m, (send_backstage_notification recipient title descr (.otherExn m)).1 =
        "Error: Unexpected error sending notification: " ++ m) ∧
    (∀ http,
        (send_backstage_notification recipient title descr http).2.recipientEntityRef =
          recipient) := by
  refine ⟨fun status text => ?_, fun m => rfl, fun m => rfl, fun http => ?_⟩
  · by_cases h : status = 200 ∨ status = 201 ∨ status = 202 <;>
      simp [send_backstage_notification, h]
  · cases http with
    | resp s t =>
        by_cases h : s = 200 ∨ s = 201 ∨ s = 202 <;>
          simp [send_backstage_notification, h]
    | reqExn m => rfl
    | otherExn m => rfl

/-- C4: `BackstageNotificationTool._run` returns, for every input, a string
and never raises (both `except` clauses return): non-JSON input yields the
parse-failure string, a missing or falsy `title` yields
`"Error: title is required"`, a missing or falsy `description` yields
`"Error: description is required"`, and a valid-JSON non-dict input yields
the caught-`AttributeError` string — all with no delegation to the send
primitive (the `Bool` component, the one network call, is `false`); with
both fields present and truthy the tool delegates and returns the send
primitive's result. -/
theorem notificationTool_run_validation :
    (∀ (e : Exn) (s : String),
        notificationTool_run (.error e) s =
          ("Failed to parse notification data JSON: " ++ e.msg, false)) ∧
    (∀ (fs : List (String × Json)) (s : String),
        ((fs.lookup "title").getD (.str "")).truthy = false →
          notificationTool_run (.ok (.obj fs)) s =
            ("Error: title is required", false)) ∧
    (∀ (fs : List (String × Json)) (s : String),
        ((fs.lookup "title").getD (.str "")).truthy = true →
          ((fs.lookup "description").getD (.str "")).truthy = false →
            notificationTool_run (.ok (.obj fs)) s =
              ("Error: description is required", false)) ∧
    (∀ (fs : List (String × Json)) (s : String),
        ((fs.lookup "title").getD (.str "")).truthy = true →
          ((fs.lookup "description").getD (.str "")).truthy = true →
            notificationTool_run (.ok (.obj fs)) s = (s, true)) ∧
    (∀ (j : Json) (s : String), (∀ fs, j ≠ .obj fs) →
        notificationTool_run (.ok j) s =
          ("Failed to send notification: AttributeError: object has no attribute get",
            false)) := by
  refine ⟨fun e s => rfl, fun fs s h1 => ?_, fun fs s h1 h2 => ?_,
    fun fs s h1 h2 => ?_, fun j s hj => ?_⟩
  · simp [notificationTool_run, notificationTool_body, Json.pyGet, bind,
      Except.bind, pure, Except.pure, h1]
  · simp [notificationTool_run, notificationTool_body, Json.pyGet, bind,
      Except.bind, pure, Except.pure, h1, h2]
  · simp [notificationTool_run, notificationTool_body, Json.pyGet, bind,
      Except.bind, pure, Except.pure, h1, h2]
  · cases j with
    | obj fs => exact absurd rfl (hj fs)
    | null => rfl
    | bool b => rfl
    | num n => rfl
    | str s => rfl
    | arr xs => rfl

/-- C4 witness: the hypothesis-bearing branches of
`notificationTool_run_validation` at concrete inputs. -/
theorem notificationTool_run_validation_witness :
    notificationTool_run (.ok (.obj [("description", .str "d")])) "S" =
        ("Error: title is required", false) ∧
    notificationTool_run (.ok (.obj [("title", .str "t")])) "S" =
        ("Error: description is required", false) ∧
    notificationTool_run
        (.ok (.obj [("title", .str "t"), ("description", .str "d")])) "SENT" =
        ("SENT", true) ∧
    notificationTool_run (.ok (.arr [])) "S" =
        ("Failed to send notification: AttributeError: object has no attribute get",
          false) :=
  ⟨notificationTool_run_validation.2.1 _ "S" (by decide),
   notificationTool_run_validation.2.2.1 _ "S" (by decide) (by decide),
   notificationTool_run_validation.2.2.2.1 _ "SENT" (by decide) (by decide),
   notificationTool_run_validation.2.2.2.2 (.arr []) "S" (by intro fs h; cases h)⟩

/-- On a well-formed entity the loop body never raises: it yields the pure
group entry exactly when the entity's kind is the string `"Group"`. -/
theorem catalogEntityGroup_wf (e : Json) (h : wfEntity e = true) :
    catalogEntityGroup e =
      .ok (if entityKindIsGroup e then some (groupDisplay e, groupRef e)
           else none) := by
  cases e with
  | obj fs =>
      simp only [catalogEntityGroup, Json.pyGet, bind, Except.bind, pure,
        Except.pure, entityKindIsGroup]
      by_cases hk : ((fs.lookup "kind").getD .null).isPyStrEq "Group"
      · simp only [hk, if_true]
        cases hm : fs.lookup "metadata" with
        | none =>
            simp [hm, groupDisplay, groupName, groupNs, groupTitle,
              entityMetadata, groupRef]
        | some mj =>
            cases mj with
            | obj ms =>
                simp [hm, groupDisplay, groupName, groupNs, groupTitle,
                  entityMetadata, groupRef]
            | null => simp [wfEntity, hm] at h
            | bool b => simp [wfEntity, hm] at h
            | num n => simp [wfEntity, hm] at h
            | str s => simp [wfEntity, hm] at h
            | arr xs => simp [wfEntity, hm] at h
      · simp [hk]
  | null => simp [wfEntity] at h
  | bool b => simp [wfEntity] at h
  | num n => simp [wfEntity] at h
  | str s => simp [wfEntity] at h
  | arr xs => simp [wfEntity] at h

/-- Over well-formed entities the whole loop collects exactly the pure
`groupsOf` list, raising nothing. -/
theorem collectGroups_wf (es : List Json) (h : ∀ e ∈ es, wfEntity e = true) :
    collectGroups es = .ok (groupsOf es) := by
  induction es with
  | nil => simp [collectGroups, groupsOf]
  | cons e es ih =>
      have he : wfEntity e = true := h e (by simp)
      have hrest : ∀ x ∈ es, wfEntity x = true :=
        fun x hx => h x (by simp [hx])
      simp only [collectGroups, catalogEntityGroup_wf e he, ih hrest, bind,
        Except.bind, groupsOf]
      by_cases hg : entityKindIsGroup e
      · simp [hg, List.filter_cons]
      · simp [hg, List.filter_cons]

/-- C6: for every HTTP 200 catalog response whose body is an array of
entities (each a dict with dict-or-absent `metadata`, as the catalog
interface delivers them), `BackstageCatalogTool._run` returns the literal
sentinel `"No groups found in the Backstage Catalog."` when no entity has
kind `"Group"` — never an empty string, never an exception — and otherwise
returns the header plus exactly one bullet line per Group entity, each line
carrying the display value and the `group:<namespace>/<name>` entity
reference. -/
theorem catalogTool_groups_rendering (r : CatalogResponse)
    (entities : List Json) (hs : r.status = 200)
    (hb : r.body = .ok (.arr entities))
    (hw : ∀ e ∈ entities, wfEntity e = true) :
    (groupsOf entities = [] →
      backstageCatalogTool_run (.resp r) =
        "No groups found in the Backstage Catalog.") ∧
    (groupsOf entities ≠ [] →
      backstageCatalogTool_run (.resp r) =
        "Found " ++ toString (groupsOf entities).length ++
          " group(s) in Backstage Catalog:\n\n" ++
          String.join ((entities.filter entityKindIsGroup).map
            (fun e =>
              "- **" ++ (groupDisplay e).pyStr ++ "** (" ++ groupRef e ++
                ")\n"))) := by
  have hrun : backstageCatalogTool_run (.resp r) =
      (if (groupsOf entities).isEmpty then
        "No groups found in the Backstage Catalog."
      else renderGroups (groupsOf entities)) := by
    simp [backstageCatalogTool_run, hs, hb, Json.pyIter, bind, Except.bind,
      collectGroups_wf entities hw]
  constructor
  · intro hg
    rw [hrun]
    simp [hg]
  · intro hg
    have hne : (groupsOf entities).isEmpty = false := by
      simpa [List.isEmpty_iff] using hg
    rw [hrun, if_neg (by simp [hne])]
    unfold renderGroups groupsOf
    rw [List.map_map]
    rfl

/-- C6 witness: a 200 response with zero Group entities yields the sentinel,
and one with two Group entities yields exactly two bullet lines with their
display values and entity references. -/
theorem catalogTool_groups_rendering_witness :
    backstageCatalogTool_run (.resp ⟨200, "", .ok (.arr [])⟩) =
        "No groups found in the Backstage Catalog." ∧
    backstageCatalogTool_run (.resp ⟨200, "",
        .ok (.arr
          [.obj [("kind", .str "Group"),
                 ("metadata",
                  .obj [("name", .str "team-a"), ("title", .str "Team A")])],
           .obj [("kind", .str "Group"),
                 ("metadata",
                  .obj [("name", .str "team-b"),
                        ("namespace", .str "ns-b")])]])⟩) =
        "Found 2 group(s) in Backstage Catalog:\n\n" ++
          "- **Team A** (group:default/team-a)\n" ++
          "- **team-b** (group:ns-b/team-b)\n" := by
  constructor
  · exact (catalogTool_groups_rendering ⟨200, "", .ok (.arr [])⟩ [] rfl rfl
      (by intro e he; cases he)).1 rfl
  · have h := (catalogTool_groups_rendering
      ⟨200, "",
        .ok (.arr
          [.obj [("kind", .str "Group"),
                 ("metadata",
                  .obj [("name", .str "team-a"), ("title", .str "Team A")])],
           .obj [("kind", .str "Group"),
                 ("metadata",
                  .obj [("name", .str "team-b"),
                        ("namespace", .str "ns-b")])]])⟩
      [.obj [("kind", .str "Group"),
             ("metadata",
              .obj [("name", .str "team-a"), ("title", .str "Team A")])],
       .obj [("kind", .str "Group"),
             ("metadata",
              .obj [("name", .str "team-b"), ("namespace", .str "ns-b")])]]
      rfl rfl
      (by intro e he
          simp only [List.mem_cons, List.not_mem_nil, or_false] at he
          rcases he with rfl | rfl <;> rfl)).2
      (fun hg => List.noConfusion hg)
    rw [h]
    rfl

/-- C10: in the catalog loop, an entity whose `kind` is not exactly the
string `"Group"` contributes nothing; for an included entity a missing
`metadata.namespace` renders the entity reference with namespace
`"default"`, and a missing or empty `metadata.title` makes the display value
fall back to `metadata.name`. -/
theorem catalog_group_filter_defaults (fs ms : List (String × Json)) :
    (entityKindIsGroup (.obj fs) = false →
      catalogEntityGroup (.obj fs) = .ok none) ∧
    (fs.lookup "kind" = some (.str "Group") →
      fs.lookup "metadata" = some (.obj ms) →
      ms.lookup "namespace" = none →
      catalogEntityGroup (.obj fs) =
        .ok (some (groupDisplay (.obj fs),
          "group:default/" ++ (groupName (.obj fs)).pyStr))) ∧
    (fs.lookup "kind" = some (.str "Group") →
      fs.lookup "metadata" = some (.obj ms) →
      (ms.lookup "title" = none ∨ ms.lookup "title" = some (.str "")) →
      catalogEntityGroup (.obj fs) =
        .ok (some (groupName (.obj fs), groupRef (.obj fs)))) := by
  refine ⟨fun hk => ?_, fun hk hm hns => ?_, fun hk hm ht => ?_⟩
  · simp only [entityKindIsGroup] at hk
    simp [catalogEntityGroup, Json.pyGet, bind, Except.bind, pure,
      Except.pure, hk]
  · simp [catalogEntityGroup, Json.pyGet, bind, Except.bind, pure,
      Except.pure, hk, hm, hns, Json.isPyStrEq, groupDisplay, groupTitle,
      groupName, groupNs, groupRef, entityMetadata, Json.pyStr, Json.pyRepr]
  · rcases ht with ht | ht <;>
      simp [catalogEntityGroup, Json.pyGet, bind, Except.bind, pure,
        Except.pure, hk, hm, ht, Json.isPyStrEq, groupDisplay, groupTitle,
        groupName, groupNs, groupRef, entityMetadata, Json.truthy]

/-- C10 witness: the three behaviours at concrete entities — a lowercase
`"group"` kind is excluded, a missing namespace defaults in the reference,
and a missing title falls back to the name. -/
theorem catalog_group_filter_defaults_witness :
    catalogEntityGroup
        (.obj [("kind", .str "group"),
               ("metadata", .obj [("name", .str "x")])]) = .ok none ∧
    catalogEntityGroup
        (.obj [("kind", .str "Group"),
               ("metadata", .obj [("name", .str "team-a")])]) =
      .ok (some (.str "team-a", "group:default/team-a")) ∧
    catalogEntityGroup
        (.obj [("kind", .str "Group"),
               ("metadata",
                .obj [("name", .str "team-b"), ("title", .str "")])]) =
      .ok (some (.str "team-b", "group:default/team-b")) := by
  refine ⟨?_, ?_, ?_⟩
  · exact (catalog_group_filter_defaults
      [("kind", .str "group"), ("metadata", .obj [("name", .str "x")])]
      [("name", .str "x")]).1 rfl
  · exact (catalog_group_filter_defaults
      [("kind", .str "Group"), ("metadata", .obj [("name", .str "team-a")])]
      [("name", .str "team-a")]).2.1 rfl rfl rfl
  · have h := (catalog_group_filter_defaults
      [("kind", .str "Group"),
       ("metadata", .obj [("name", .str "team-b"), ("title", .str "")])]
      [("name", .str "team-b"), ("title", .str "")]).2.2 rfl rfl
      (Or.inr rfl)
    rw [h]
    rfl

/-- C3: `UnknownTopicMonitor._handle_message` never invokes the analysis
callback for a message whose topic differs from the monitored topic (it only
logs at debug level and discards it), and for a message on the monitored
topic it invokes the callback exactly once — `_handle_message` has a single
call site of `ai_agent_callback` — with the message value and a metadata
mapping carrying topic, partition, offset, timestamp, headers and key. -/
theorem handle_message_filter (monitoredTopic : String) (m : KafkaMessage) :
    (m.topic ≠ monitoredTopic →
      UnknownTopicMonitor_handle_message monitoredTopic m = none) ∧
    (m.topic = monitoredTopic →
      ∃ md, UnknownTopicMonitor_handle_message monitoredTopic m =
          some (m.value, md) ∧
        md.lookup "topic" = some (.str m.topic) ∧
        md.lookup "partition" = some (.num m.partition) ∧
        md.lookup "offset" = some (.num m.offset) ∧
        md.lookup "timestamp" = some (.num m.timestamp) ∧
        md.lookup "headers" = some (.obj m.headers) ∧
        md.lookup "key" = some (match m.key with
          | some k => .str k
          | none => .null)) := by
  constructor
  · intro h
    simp [UnknownTopicMonitor_handle_message, h]
  · intro h
    refine ⟨[("topic", .str m.topic), ("partition", .num m.partition),
             ("offset", .num m.offset), ("timestamp", .num m.timestamp),
             ("headers", .obj m.headers),
             ("key", match m.key with | some k => .str k | none => .null)],
      ?_, rfl, rfl, rfl, rfl, rfl, rfl⟩
    simp [UnknownTopicMonitor_handle_message, h]

/-- C3 witness: a message on another topic is discarded; one on the
monitored topic reaches the callback with its full metadata. -/
theorem handle_message_filter_witness :
    UnknownTopicMonitor_handle_message "unknown-topic"
        ⟨"reviews", 0, 7, none, "v", 5, []⟩ = none ∧
    ∃ md, UnknownTopicMonitor_handle_message "unknown-topic"
        ⟨"unknown-topic", 0, 42, some "k", "payload", 99, []⟩ =
          some ("payload", md) ∧
      md.lookup "topic" = some (.str "unknown-topic") ∧
      md.lookup "partition" = some (.num 0) ∧
      md.lookup "offset" = some (.num 42) ∧
      md.lookup "timestamp" = some (.num 99) ∧
      md.lookup "headers" = some (.obj []) ∧
      md.lookup "key" = some (.str "k") :=
  ⟨(handle_message_filter "unknown-topic" ⟨"reviews", 0, 7, none, "v", 5, []⟩).1
      (by decide),
   (handle_message_filter "unknown-topic"
      ⟨"unknown-topic", 0, 42, some "k", "payload", 99, []⟩).2 rfl⟩

/-- C8: for every handler and every sequence of fetched records,
`start_consuming` hands each record to the handler and finishes the
sequence with no uncaught exception: a handler that raises on one message —
its outcome is swallowed by the per-message `except` clause — never stops
the loop and never prevents later messages from being handled. -/
theorem start_consuming_resilient (handler : KafkaMessage → Except Exn Unit)
    (msgs : List KafkaMessage) :
    start_consuming handler msgs = (msgs, none) := by
  induction msgs with
  | nil => rfl
  | cons m rest ih =>
      have hstep : startConsumingStep handler m = .ok () := by
        unfold startConsumingStep
        cases handler m <;> rfl
      simp only [start_consuming] at ih ⊢
      simp [consumeLoop, hstep, ih]

/-- Rounds executed by the reasoning loop never exceed the fuel it is
started with. -/
theorem runReactLoop_rounds_le (oracle : ModelOracle)
    (toolEval : String → String → Except Exn String) :
    ∀ (fuel : Nat) (st : LoopState),
      (runReactLoop oracle toolEval fuel st).2.rounds ≤ st.rounds + fuel := by
  intro fuel
  induction fuel with
  | zero => intro st; simp [runReactLoop]
  | succ n ih =>
      intro st
      cases ho : oracle st.transcript with
      | error e => simp [runReactLoop, ho]
      | ok act =>
          cases act with
          | finalAnswer a => simp [runReactLoop, ho]
          | toolCall name args =>
              by_cases hn :
                  (name == notification_tool_name ||
                    name == catalog_tool_name) = true
              · cases ht : toolEval name args with
                | error e =>
                    simp only [runReactLoop, ho, hn, if_true, ht]
                    omega
                | ok res =>
                    simp only [runReactLoop, ho, hn, if_true, ht]
                    refine le_trans (ih _) ?_
                    simp
                    omega
              · simp only [runReactLoop, ho, hn, if_false, Bool.false_eq_true]
                refine le_trans (ih _) ?_
                simp
                omega

/-- C9: one `Analyze` call runs the reasoning loop with the configured
`max_iterations=5` budget, and the loop executes at most that many reasoning
rounds (model invocations) whatever the model and the tools do — also when
the model never emits a final answer. -/
theorem reasoning_rounds_bounded (oracle : ModelOracle)
    (toolEval : String → String → Except Exn String) (prompt : String) :
    (runReactLoop oracle toolEval agent_max_iterations
        { transcript := [prompt], sendAttempts := 0,
          rounds := 0 }).2.rounds ≤ agent_max_iterations ∧
    agent_max_iterations = 5 := by
  refine ⟨?_, rfl⟩
  simpa using runReactLoop_rounds_le oracle toolEval agent_max_iterations
    { transcript := [prompt], sendAttempts := 0, rounds := 0 }

/-- C2: `process_unknown_message` returns normally for every content string,
metadata mapping, model behaviour, tool behaviour and fallback-send
behaviour: the outer `except Exception` catches everything the reasoning
loop raises, and an exception raised by the fallback send itself is caught
by the inner `except` and swallowed. -/
theorem analyze_never_raises (oracle : ModelOracle)
    (toolEval : String → String → Except Exn String)
    (fallbackSend : String → String → Except Exn String)
    (content : String) (metadata : List (String × Json)) :
    (process_unknown_message oracle toolEval fallbackSend content
        metadata).returned = .ok () := by
  rcases hr : runReactLoop oracle toolEval agent_max_iterations
      { transcript := [buildPrompt content metadata], sendAttempts := 0,
        rounds := 0 } with ⟨res, st⟩
  simp only [process_unknown_message, hr]
  cases res with
  | ok r => rfl
  | error e =>
      cases hf : fallbackSend "AI Agent Error"
          (fallbackNotificationDescription e.msg metadata) with
      | ok s => simp [hf]
      | error e2 => simp [hf]

/-- C5: whenever an exception escapes the reasoning loop inside
`process_unknown_message`, the fallback notification is attempted with title
`"AI Agent Error"` and with exactly the description the source builds —
which contains the error text and the metadata mapping's topic, partition,
offset and timestamp renderings. -/
theorem fallback_notification_content (oracle : ModelOracle)
    (toolEval : String → String → Except Exn String)
    (fallbackSend : String → String → Except Exn String)
    (content : String) (metadata : List (String × Json)) (e : Exn)
    (h : (process_unknown_message oracle toolEval fallbackSend content
        metadata).loopResult = .error e) :
    (process_unknown_message oracle toolEval fallbackSend content
        metadata).fallbackAttempted = true ∧
    (process_unknown_message oracle toolEval fallbackSend content
        metadata).fallbackTitle = some "AI Agent Error" ∧
    (process_unknown_message oracle toolEval fallbackSend content
        metadata).fallbackDescr =
      some (fallbackNotificationDescription e.msg metadata) ∧
    (∃ a b, fallbackNotificationDescription e.msg metadata =
      a ++ (e.msg ++ b)) ∧
    (∃ a b, fallbackNotificationDescription e.msg metadata =
      a ++ ((pyDictGet metadata "topic").pyStr ++ b)) ∧
    (∃ a b, fallbackNotificationDescription e.msg metadata =
      a ++ ((pyDictGet metadata "partition").pyStr ++ b)) ∧
    (∃ a b, fallbackNotificationDescription e.msg metadata =
      a ++ ((pyDictGet metadata "offset").pyStr ++ b)) ∧
    (∃ a b, fallbackNotificationDescription e.msg metadata =
      a ++ ((pyDictGet metadata "timestamp").pyStr ++ b)) := by
  refine ⟨?_, ?_, ?_,
    ⟨"The AI agent encountered an error while analyzing a failed message:\n\n**Error:** ",
     "\n\n**Metadata:**\n- Topic: " ++ (pyDictGet metadata "topic").pyStr ++
       "\n- Partition: " ++ (pyDictGet metadata "partition").pyStr ++
       "\n- Offset: " ++ (pyDictGet metadata "offset").pyStr ++
       "\n- Timestamp: " ++ (pyDictGet metadata "timestamp").pyStr ++
       "\n\nPlease investigate this message routing failure manually.",
     by simp [fallbackNotificationDescription, String.append_assoc]⟩,
    ⟨"The AI agent encountered an error while analyzing a failed message:\n\n**Error:** " ++
       e.msg ++ "\n\n**Metadata:**\n- Topic: ",
     "\n- Partition: " ++ (pyDictGet metadata "partition").pyStr ++
       "\n- Offset: " ++ (pyDictGet metadata "offset").pyStr ++
       "\n- Timestamp: " ++ (pyDictGet metadata "timestamp").pyStr ++
       "\n\nPlease investigate this message routing failure manually.",
     by simp [fallbackNotificationDescription, String.append_assoc]⟩,
    ⟨"The AI agent encountered an error while analyzing a failed message:\n\n**Error:** " ++
       e.msg ++ "\n\n**Metadata:**\n- Topic: " ++
       (pyDictGet metadata "topic").pyStr ++ "\n- Partition: ",
     "\n- Offset: " ++ (pyDictGet metadata "offset").pyStr ++
       "\n- Timestamp: " ++ (pyDictGet metadata "timestamp").pyStr ++
       "\n\nPlease investigate this message routing failure manually.",
     by simp [fallbackNotificationDescription, String.append_assoc]⟩,
    ⟨"The AI agent encountered an error while analyzing a failed message:\n\n**Error:** " ++
       e.msg ++ "\n\n**Metadata:**\n- Topic: " ++
       (pyDictGet metadata "topic").pyStr ++ "\n- Partition: " ++
       (pyDictGet metadata "partition").pyStr ++ "\n- Offset: ",
     "\n- Timestamp: " ++ (pyDictGet metadata "timestamp").pyStr ++
       "\n\nPlease investigate this message routing failure manually.",
     by simp [fallbackNotificationDescription, String.append_assoc]⟩,
    ⟨"The AI agent encountered an error while analyzing a failed message:\n\n**Error:** " ++
       e.msg ++ "\n\n**Metadata:**\n- Topic: " ++
       (pyDictGet metadata "topic").pyStr ++ "\n- Partition: " ++
       (pyDictGet metadata "partition").pyStr ++ "\n- Offset: " ++
       (pyDictGet metadata "offset").pyStr ++ "\n- Timestamp: ",
     "\n\nPlease investigate this message routing failure manually.",
     by simp [fallbackNotificationDescription, String.append_assoc]⟩⟩ <;>
  · rcases hr : runReactLoop oracle toolEval agent_max_iterations
        { transcript := [buildPrompt content metadata], sendAttempts := 0,
          rounds := 0 } with ⟨res, st⟩
    simp only [process_unknown_message, hr] at h ⊢
    cases res with
    | ok r => simp at h
    | error e2 =>
        cases hf : fallbackSend "AI Agent Error"
            (fallbackNotificationDescription e2.msg metadata) with
        | ok s => simp_all [hf]
        | error e3 => simp_all [hf]

/-- C5 witness: a model call that raises a timeout on a concrete message
makes the fallback carry the "AI Agent Error" title and the built
description. -/
theorem fallback_notification_content_witness :
    (process_unknown_message (fun _ => .error ⟨"Request timed out"⟩)
        (fun _ _ => .ok "ok") (fun _ _ => .ok "sent") "garbled"
        [("topic", .str "review"), ("partition", .num 0),
         ("offset", .num 42),
         ("timestamp", .num 1700000000000)]).fallbackAttempted = true ∧
    (process_unknown_message (fun _ => .error ⟨"Request timed out"⟩)
        (fun _ _ => .ok "ok") (fun _ _ => .ok "sent") "garbled"
        [("topic", .str "review"), ("partition", .num 0),
         ("offset", .num 42),
         ("timestamp", .num 1700000000000)]).fallbackTitle =
      some "AI Agent Error" ∧
    (process_unknown_message (fun _ => .error ⟨"Request timed out"⟩)
        (fun _ _ => .ok "ok") (fun _ _ => .ok "sent") "garbled"
        [("topic", .str "review"), ("partition", .num 0),
         ("offset", .num 42),
         ("timestamp", .num 1700000000000)]).fallbackDescr =
      some (fallbackNotificationDescription "Request timed out"
        [("topic", .str "review"), ("partition", .num 0),
         ("offset", .num 42), ("timestamp", .num 1700000000000)]) :=
  have h := fallback_notification_content
    (fun _ => .error ⟨"Request timed out"⟩) (fun _ _ => .ok "ok")
    (fun _ _ => .ok "sent") "garbled"
    [("topic", .str "review"), ("partition", .num 0), ("offset", .num 42),
     ("timestamp", .num 1700000000000)] ⟨"Request timed out"⟩ rfl
  ⟨h.1, h.2.1, h.2.2.1⟩

/-- C1 counterexample: a model run that emits a final answer without ever
selecting the `SendNotification` tool completes `process_unknown_message`
normally with zero notification-send attempts — the claimed
"exactly one attempt, never zero" does not hold on this input. -/
theorem single_attempt_counterexample :
    notificationAttempts (process_unknown_message
        (fun _ => .ok (.finalAnswer "Likely cause: ambiguous intent"))
        (fun _ _ => .ok "tool ok") (fun _ _ => .ok "sent") "payload"
        [("topic", .str "unknown-topic"), ("partition", .num 0),
         ("offset", .num 42), ("timestamp", .num 0),
         ("headers", .obj [])]) = 0 ∧
    (process_unknown_message
        (fun _ => .ok (.finalAnswer "Likely cause: ambiguous intent"))
        (fun _ _ => .ok "tool ok") (fun _ _ => .ok "sent") "payload"
        [("topic", .str "unknown-topic"), ("partition", .num 0),
         ("offset", .num 42), ("timestamp", .num 0),
         ("headers", .obj [])]).returned = .ok () :=
  ⟨rfl, rfl⟩

/-- C1 (amended): per `process_unknown_message` call, exactly one fallback
send attempt occurs when an exception escapes the reasoning loop and none
otherwise; the total number of notification-send attempts equals the number
of model-driven `SendNotification` tool calls of the run plus that fallback
attempt — the code does not force the total to be one (it is zero when the
model completes without calling the tool, and above one when the model
calls it repeatedly or a failure follows a tool send). -/
theorem notification_attempt_accounting (oracle : ModelOracle)
    (toolEval : String → String → Except Exn String)
    (fallbackSend : String → String → Except Exn String)
    (content : String) (metadata : List (String × Json)) :
    (∀ r, (runReactLoop oracle toolEval agent_max_iterations
          { transcript := [buildPrompt content metadata], sendAttempts := 0,
            rounds := 0 }).1 = .ok r →
        (process_unknown_message oracle toolEval fallbackSend content
            metadata).fallbackAttempted = false ∧
        notificationAttempts (process_unknown_message oracle toolEval
            fallbackSend content metadata) =
          (runReactLoop oracle toolEval agent_max_iterations
            { transcript := [buildPrompt content metadata],
              sendAttempts := 0, rounds := 0 }).2.sendAttempts) ∧
    (∀ e, (runReactLoop oracle toolEval agent_max_iterations
          { transcript := [buildPrompt content metadata], sendAttempts := 0,
            rounds := 0 }).1 = .error e →
        (process_unknown_message oracle toolEval fallbackSend content
            metadata).fallbackAttempted = true ∧
        notificationAttempts (process_unknown_message oracle toolEval
            fallbackSend content metadata) =
          (runReactLoop oracle toolEval agent_max_iterations
            { transcript := [buildPrompt content metadata],
              sendAttempts := 0, rounds := 0 }).2.sendAttempts + 1) := by
  rcases hr : runReactLoop oracle toolEval agent_max_iterations
      { transcript := [buildPrompt content metadata], sendAttempts := 0,
        rounds := 0 } with ⟨res, st⟩
  refine ⟨fun r h => ?_, fun e h => ?_⟩
  · cases res with
    | ok r2 =>
        simp only [process_unknown_message, hr, notificationAttempts]
        simp
    | error e2 => simp at h
  · cases res with
    | ok r2 => simp at h
    | error e2 =>
        cases hf : fallbackSend "AI Agent Error"
            (fallbackNotificationDescription e2.msg metadata) with
        | ok s =>
            simp only [process_unknown_message, hr, hf, notificationAttempts]
            simp
        | error e3 =>
            simp only [process_unknown_message, hr, hf, notificationAttempts]
            simp

/-- C1 (amended) witness: the two branches at concrete model behaviours — a
run that final-answers immediately makes no fallback attempt; a run whose
model call raises makes the loop's send count plus exactly one. -/
theorem notification_attempt_accounting_witness :
    (process_unknown_message (fun _ => .ok (.finalAnswer "done"))
        (fun _ _ => .ok "t") (fun _ _ => .ok "s") "m"
        [("topic", .str "unknown-topic")]).fallbackAttempted = false ∧
    notificationAttempts (process_unknown_message (fun _ => .error ⟨"boom"⟩)
        (fun _ _ => .ok "t") (fun _ _ => .ok "s") "m"
        [("topic", .str "unknown-topic")]) =
      (runReactLoop (fun _ => .error ⟨"boom"⟩) (fun _ _ => .ok "t")
        agent_max_iterations
        { transcript := [buildPrompt "m" [("topic", .str "unknown-topic")]],
          sendAttempts := 0, rounds := 0 }).2.sendAttempts + 1 :=
  ⟨((notification_attempt_accounting (fun _ => .ok (.finalAnswer "done"))
      (fun _ _ => .ok "t") (fun _ _ => .ok "s") "m"
      [("topic", .str "unknown-topic")]).1 (some "done") rfl).1,
   ((notification_attempt_accounting (fun _ => .error ⟨"boom"⟩)
      (fun _ _ => .ok "t") (fun _ _ => .ok "s") "m"
      [("topic", .str "unknown-topic")]).2 ⟨"boom"⟩ rfl).2⟩
